import Mathlib

/-!
# Verification of the async task lifecycle of `backend/server.ts`

Shallow embedding of the asynchronous task lifecycle and progress-event
subsystem of the Express backend (`src/backend/server.ts` together with the
connection-string helper `getATXPConnectionString` of `atxp-utils`).

Modelling conventions:
* The in-memory `texts` array is a `List Text`; JavaScript's in-place
  mutation `texts[i].f = v` becomes the functional update `updateAt`.
* The external image service is an oracle `resp : Nat → TickBehavior`
  giving, for each attempt number, either a thrown error (`.err`) or a
  parsed `{status, url}` pair, together with the outcome of the filestore
  call (`Option FileResult`, `none` = the filestore step throws), which is
  consulted only when the completed-with-url branch runs.
* `sendStageUpdate` / `sendSSEUpdate` append a `StageEvent` to the emitted
  trace; the events of one poller run are returned in emission order.
* Wall-clock timestamps (`new Date().toISOString()`, the 5-second sleeps)
  are not modelled; `Date.now()` at submission time is a `Nat` parameter.
-/

namespace Server

/-- The `Text` record of `server.ts` (`interface Text`), the `timestamp`
field dropped (wall-clock only). `status` and `taskId` keep their
source-level string/optional typing. -/
structure Text where
  id : Nat
  text : String
  imageUrl : String
  fileName : String
  fileId : Option String
  status : String
  taskId : Option String
deriving Repr, DecidableEq

/-- One progress event as passed to `sendStageUpdate(requestId, stage,
message, status)` (or the equivalent literal given to `sendSSEUpdate`);
the emission timestamp is dropped. -/
structure StageEvent where
  id : String
  stage : String
  message : String
  status : String
deriving Repr, DecidableEq

/-- Parsed result of the `filestore_write` tool call
(`filestoreService.getResult`): `{filename, url, fileId?}`. -/
structure FileResult where
  filename : String
  url : String
  fileId : Option String
deriving Repr, DecidableEq

/-- External behaviour of one poll attempt: the status query either throws
(`err`) or yields a parsed `{status, url}`; `fs` is the outcome of the
filestore call should this tick reach the completed-with-url branch
(`none` = the filestore client or call throws). -/
inductive TickBehavior where
  | err : TickBehavior
  | ok (status : String) (url : Option String) (fs : Option FileResult) : TickBehavior
deriving Repr, DecidableEq

/-- JavaScript truthiness of an optional string: `undefined` and `""` are
falsy, every other string is truthy. -/
def strTruthy : Option String → Bool
  | none => false
  | some s => s != ""

/-- `sendStageUpdate(requestId, stage, message, status)` as event
construction. -/
def mkStage (requestId stage message status : String) : StageEvent :=
  ⟨requestId, stage, message, status⟩

/-- `texts.findIndex(text => text.id === textId)`, with `none` for `-1`. -/
def findTextIndex (texts : List Text) (textId : Nat) : Option Nat :=
  texts.findIdx? (fun t => t.id == textId)

/-- In-place mutation of the array cell at index `i`. -/
def updateAt : List Text → Nat → (Text → Text) → List Text
  | [], _, _ => []
  | t :: ts, 0, f => f t :: ts
  | t :: ts, n + 1, f => t :: updateAt ts n f

/-- `fileResult.fileId || fileResult.filename` under JS truthiness. -/
def fileIdOrName (fr : FileResult) : String :=
  match fr.fileId with
  | some s => if s != "" then s else fr.filename
  | none => fr.filename

/-- The rate-limited progress message
`Image generation in progress... (XmYs)` of the `processing` branch. -/
def processingMessage (attempts : Nat) : String :=
  "Image generation in progress... (" ++ toString (attempts * 5 / 60)
    ++ "m " ++ toString (attempts * 5 % 60) ++ "s)"

/-- `maxAttempts = 120` of `pollForTaskCompletion`. -/
def maxAttempts : Nat := 120

/-- One iteration of the `while` body of `pollForTaskCompletion`, after the
attempt counter was already incremented to `attempts`. Returns the updated
store, the events emitted during this tick in order, and the value of the
`completed` flag after the tick. -/
def pollTick (textId : Nat) (requestId : String) (beh : TickBehavior)
    (texts : List Text) (attempts : Nat) : List Text × List StageEvent × Bool :=
  match beh with
  | .err => (texts, [], false)
  | .ok status url fs =>
    match findTextIndex texts textId with
    | none => (texts, [], true)
    | some i =>
      if status == "completed" && strTruthy url then
        let u := url.getD ""
        let ev1 := mkStage requestId "image-completed" "Image generation completed!" "completed"
        let texts1 := updateAt texts i (fun t => { t with status := "completed", imageUrl := u })
        let ev2 := mkStage requestId "storing-file" "Storing image in ATXP Filestore..." "in-progress"
        match fs with
        | some fr =>
          let texts2 := updateAt texts1 i (fun t =>
            { t with fileName := fr.filename, imageUrl := fr.url, fileId := some (fileIdOrName fr) })
          let ev3 := mkStage requestId "completed" "Image stored successfully! Process completed." "final"
          (texts2, [ev1, ev2, ev3], true)
        | none =>
          let ev3 := mkStage requestId "filestore-warning"
            "Image ready! Filestore unavailable, using direct URL." "completed"
          let ev4 := mkStage requestId "completed" "Image generation completed!" "final"
          (texts1, [ev1, ev2, ev3, ev4], true)
      else if status == "failed" then
        let ev := mkStage requestId "generation-failed" "Image generation failed." "error"
        (updateAt texts i (fun t => { t with status := "failed" }), [ev], true)
      else if status == "processing" then
        if attempts % 2 == 0 then
          (texts, [mkStage requestId "processing" (processingMessage attempts) "in-progress"], false)
        else (texts, [], false)
      else
        (texts, [], false)

/-- The `while (!completed && attempts < maxAttempts)` loop:
`rem = maxAttempts - attempts` many iterations may still run. Returns the
store, the events of all iterations in order, and the final value of
`attempts`. -/
def pollLoop (resp : Nat → TickBehavior) (textId : Nat) (requestId : String) :
    List Text → Nat → Nat → List Text × List StageEvent × Nat
  | texts, attempts, 0 => (texts, [], attempts)
  | texts, attempts, rem + 1 =>
    let a := attempts + 1
    let r := pollTick textId requestId (resp a) texts a
    if r.2.2 then (r.1, r.2.1, a)
    else
      let rest := pollLoop resp textId requestId r.1 a rem
      (rest.1, r.2.1 ++ rest.2.1, rest.2.2)

/-- `pollForTaskCompletion` of `server.ts`: run the poll loop from
`attempts = 0`, then the trailing `if (attempts >= maxAttempts)` timeout
block. Returns the final store and the emitted events in order. -/
def pollForTaskCompletion (resp : Nat → TickBehavior) (textId : Nat)
    (requestId : String) (texts : List Text) : List Text × List StageEvent :=
  let r := pollLoop resp textId requestId texts 0 maxAttempts
  if maxAttempts ≤ r.2.2 then
    let texts2 :=
      match findTextIndex r.1 textId with
      | some i => updateAt r.1 i (fun t => { t with status := "failed" })
      | none => r.1
    (texts2, r.2.1 ++ [mkStage requestId "timeout" "Image generation timed out." "error"])
  else (r.1, r.2.1)

/-- External behaviour of one submission's `POST /api/texts` handling:
whether `findATXPAccount` succeeds, and where the client-creation /
task-creation sequence fails, if it does. -/
inductive CreateOutcome where
  | clientError
  | createError
  | ok (taskId : String)
deriving Repr, DecidableEq

/-- One `POST /api/texts` request together with the ambient environment:
the request body's `text`, the `x-atxp-connection-string` header, the
`ATXP_CONNECTION_STRING` environment variable, and the external
behaviours. -/
structure SubmitInput where
  text : Option String
  header : Option String
  env : Option String
  accountOk : Bool
  create : CreateOutcome
deriving Repr, DecidableEq

/-- `getATXPConnectionString` of `atxp-utils.ts`: the header wins when
truthy, else the environment variable when truthy, else a throw (`none`). -/
def getATXPConnectionString (header env : Option String) : Option String :=
  if strTruthy header then header
  else if strTruthy env then env
  else none

/-- Drop leading whitespace characters. -/
def dropLeadingWs : List Char → List Char
  | [] => []
  | c :: cs => if c.isWhitespace then dropLeadingWs cs else c :: cs

/-- JavaScript's `String.prototype.trim`: strip whitespace from both
ends. -/
def jsTrim (s : String) : String :=
  ⟨(dropLeadingWs ((dropLeadingWs s.data).reverse)).reverse⟩

/-- The request guard `!text || text.trim() === ''`. -/
def textMissing (text : Option String) : Bool :=
  !(strTruthy text) || jsTrim (text.getD "") == ""

/-- Outcome of one `POST /api/texts` request: HTTP status, the JSON body's
task on 201, the events emitted during the synchronous handling, the store
afterwards, and whether `pollForTaskCompletion` was started. -/
structure SubmitResult where
  httpStatus : Nat
  body : Option Text
  events : List StageEvent
  texts : List Text
  pollerStarted : Bool
deriving Repr, DecidableEq

/-- The `app.post('/api/texts')` handler. `now` is `Date.now()` at request
time (it is both the correlation id, stringified, and the task id). -/
def handleSubmit (now : Nat) (texts : List Text) (inp : SubmitInput) : SubmitResult :=
  if textMissing inp.text then
    ⟨400, none, [], texts, false⟩
  else
    match getATXPConnectionString inp.header inp.env with
    | none => ⟨400, none, [], texts, false⟩
    | some _ =>
      if !inp.accountOk then ⟨400, none, [], texts, false⟩
      else
        let requestId := toString now
        let ev0 := mkStage requestId "initializing"
          "Starting async image generation process..." "in-progress"
        let newText : Text := ⟨now, jsTrim (inp.text.getD ""), "", "", none, "pending", none⟩
        let ev1 := mkStage requestId "creating-clients" "Initializing ATXP clients..." "in-progress"
        match inp.create with
        | .clientError =>
          ⟨500, none,
            [ev0, ev1,
             mkStage requestId "initialization-error" "Failed to start image generation." "error"],
            texts, false⟩
        | .createError =>
          ⟨500, none,
            [ev0, ev1,
             mkStage requestId "starting-async-generation" "Starting async image generation..." "in-progress",
             mkStage requestId "initialization-error" "Failed to start image generation." "error"],
            texts, false⟩
        | .ok taskId =>
          let newText2 := { newText with taskId := some taskId, status := "processing" }
          ⟨201, some newText2,
            [ev0, ev1,
             mkStage requestId "starting-async-generation" "Starting async image generation..." "in-progress",
             mkStage requestId "task-started"
               ("Async image generation started (Task ID: " ++ taskId ++ ")") "in-progress"],
            texts ++ [newText2], true⟩

/-- A submission followed by the run of the poller it starts (when one is
started): final store and the full event trace of this correlation id. -/
def submitAndPoll (now : Nat) (texts : List Text) (inp : SubmitInput)
    (resp : Nat → TickBehavior) : SubmitResult × List Text × List StageEvent :=
  let r := handleSubmit now texts inp
  if r.pollerStarted then
    let p := pollForTaskCompletion resp now (toString now) r.texts
    (r, p.1, r.events ++ p.2)
  else (r, r.texts, r.events)

/-- A tick behaviour is terminal when the parsed status drives the loop into
one of the two `completed = true` branches that emit events:
`completed` with a truthy url, or `failed`. -/
def isTerminal : TickBehavior → Bool
  | .err => false
  | .ok status url _ => (status == "completed" && strTruthy url) || status == "failed"

theorem pollLoop_zero (resp : Nat → TickBehavior) (textId : Nat) (requestId : String)
    (texts : List Text) (attempts : Nat) :
    pollLoop resp textId requestId texts attempts 0 = (texts, [], attempts) := rfl

theorem pollLoop_succ (resp : Nat → TickBehavior) (textId : Nat) (requestId : String)
    (texts : List Text) (attempts m : Nat) :
    pollLoop resp textId requestId texts attempts (m + 1) =
      if (pollTick textId requestId (resp (attempts + 1)) texts (attempts + 1)).2.2 then
        ((pollTick textId requestId (resp (attempts + 1)) texts (attempts + 1)).1,
         (pollTick textId requestId (resp (attempts + 1)) texts (attempts + 1)).2.1,
         attempts + 1)
      else
        ((pollLoop resp textId requestId
            (pollTick textId requestId (resp (attempts + 1)) texts (attempts + 1)).1
            (attempts + 1) m).1,
         (pollTick textId requestId (resp (attempts + 1)) texts (attempts + 1)).2.1 ++
           (pollLoop resp textId requestId
             (pollTick textId requestId (resp (attempts + 1)) texts (attempts + 1)).1
             (attempts + 1) m).2.1,
         (pollLoop resp textId requestId
           (pollTick textId requestId (resp (attempts + 1)) texts (attempts + 1)).1
           (attempts + 1) m).2.2) := rfl

theorem pollForTaskCompletion_eq (resp : Nat → TickBehavior) (textId : Nat)
    (requestId : String) (texts : List Text) :
    pollForTaskCompletion resp textId requestId texts =
      if maxAttempts ≤ (pollLoop resp textId requestId texts 0 maxAttempts).2.2 then
        ((match findTextIndex (pollLoop resp textId requestId texts 0 maxAttempts).1 textId with
          | some i => updateAt (pollLoop resp textId requestId texts 0 maxAttempts).1 i
              (fun t => { t with status := "failed" })
          | none => (pollLoop resp textId requestId texts 0 maxAttempts).1),
         (pollLoop resp textId requestId texts 0 maxAttempts).2.1 ++
           [mkStage requestId "timeout" "Image generation timed out." "error"])
      else
        ((pollLoop resp textId requestId texts 0 maxAttempts).1,
         (pollLoop resp textId requestId texts 0 maxAttempts).2.1) := rfl

/-- The attempt counter grows by at most one per remaining iteration. -/
theorem pollLoop_attempts_le (resp : Nat → TickBehavior) (textId : Nat) (requestId : String) :
    ∀ (rem attempts : Nat) (texts : List Text),
      (pollLoop resp textId requestId texts attempts rem).2.2 ≤ attempts + rem := by
  intro rem
  induction rem with
  | zero => intro attempts texts; simp [pollLoop_zero]
  | succ m ih =>
    intro attempts texts
    rw [pollLoop_succ]
    by_cases hc : (pollTick textId requestId (resp (attempts + 1)) texts (attempts + 1)).2.2 = true
    · rw [if_pos hc]
      show attempts + 1 ≤ attempts + (m + 1)
      omega
    · rw [if_neg hc]
      show (pollLoop resp textId requestId
          (pollTick textId requestId (resp (attempts + 1)) texts (attempts + 1)).1
          (attempts + 1) m).2.2 ≤ attempts + (m + 1)
      have := ih (attempts + 1)
        (pollTick textId requestId (resp (attempts + 1)) texts (attempts + 1)).1
      omega

/-- A non-terminal tick on a store that contains the task leaves the store
unchanged, does not complete the loop, and emits only `in-progress`
events. -/
theorem pollTick_nonterminal (textId : Nat) (requestId : String) (beh : TickBehavior)
    (texts : List Text) (attempts : Nat)
    (hp : (findTextIndex texts textId).isSome = true)
    (ht : isTerminal beh = false) :
    (pollTick textId requestId beh texts attempts).1 = texts ∧
    (pollTick textId requestId beh texts attempts).2.2 = false ∧
    ∀ e ∈ (pollTick textId requestId beh texts attempts).2.1, e.status = "in-progress" := by
  cases beh with
  | err => simp [pollTick]
  | ok status url fs =>
    obtain ⟨i, hi⟩ := Option.isSome_iff_exists.mp hp
    simp only [isTerminal, Bool.or_eq_false_iff] at ht
    obtain ⟨hcond, ht2⟩ := ht
    simp only [pollTick, hi, hcond, ht2, Bool.false_eq_true, if_false]
    by_cases hpc : (status == "processing") = true
    · simp only [hpc, if_true]
      by_cases hmod : (attempts % 2 == 0) = true
      · simp [hmod, mkStage]
      · simp [hmod]
    · simp [hpc]

/-- Running the loop over non-terminal ticks only: the store survives
unchanged, the loop consumes every remaining iteration, and every emitted
event carries status `in-progress`. -/
theorem pollLoop_nonterminal (resp : Nat → TickBehavior) (textId : Nat) (requestId : String) :
    ∀ (rem attempts : Nat) (texts : List Text),
      (findTextIndex texts textId).isSome = true →
      (∀ n, attempts < n → n ≤ attempts + rem → isTerminal (resp n) = false) →
      (pollLoop resp textId requestId texts attempts rem).1 = texts ∧
      (pollLoop resp textId requestId texts attempts rem).2.2 = attempts + rem ∧
      ∀ e ∈ (pollLoop resp textId requestId texts attempts rem).2.1,
        e.status = "in-progress" := by
  intro rem
  induction rem with
  | zero => intro attempts texts hp _; simp [pollLoop_zero]
  | succ m ih =>
    intro attempts texts hp h
    have hbeh : isTerminal (resp (attempts + 1)) = false :=
      h (attempts + 1) (Nat.lt_succ_self _) (by omega)
    obtain ⟨h1, h2, h3⟩ :=
      pollTick_nonterminal textId requestId (resp (attempts + 1)) texts (attempts + 1) hp hbeh
    have key : pollLoop resp textId requestId texts attempts (m + 1) =
        ((pollLoop resp textId requestId texts (attempts + 1) m).1,
         (pollTick textId requestId (resp (attempts + 1)) texts (attempts + 1)).2.1 ++
           (pollLoop resp textId requestId texts (attempts + 1) m).2.1,
         (pollLoop resp textId requestId texts (attempts + 1) m).2.2) := by
      rw [pollLoop_succ, h2, h1]; rfl
    rw [key]
    obtain ⟨ih1, ih2, ih3⟩ := ih (attempts + 1) texts hp
      (fun n hn1 hn2 => h n (by omega) (by omega))
    refine ⟨ih1, ?_, ?_⟩
    · show (pollLoop resp textId requestId texts (attempts + 1) m).2.2 = attempts + (m + 1)
      omega
    · intro e he
      rcases List.mem_append.mp he with he | he
      · exact h3 e he
      · exact ih3 e he

/-- Running the loop over ticks that each leave the store untouched, emit
nothing, and do not complete: the loop ends silently after consuming every
iteration. -/
theorem pollLoop_silent (resp : Nat → TickBehavior) (textId : Nat) (requestId : String) :
    ∀ (rem attempts : Nat) (texts : List Text),
      (∀ n, attempts < n → n ≤ attempts + rem →
        pollTick textId requestId (resp n) texts n = (texts, [], false)) →
      pollLoop resp textId requestId texts attempts rem = (texts, [], attempts + rem) := by
  intro rem
  induction rem with
  | zero => intro attempts texts _; simp [pollLoop_zero]
  | succ m ih =>
    intro attempts texts h
    have htick := h (attempts + 1) (Nat.lt_succ_self _) (by omega)
    rw [pollLoop_succ, htick]
    show ((pollLoop resp textId requestId texts (attempts + 1) m).1,
          [] ++ (pollLoop resp textId requestId texts (attempts + 1) m).2.1,
          (pollLoop resp textId requestId texts (attempts + 1) m).2.2) =
        (texts, [], attempts + (m + 1))
    rw [ih (attempts + 1) texts (fun n hn1 hn2 => h n (by omega) (by omega))]
    have hm : attempts + 1 + m = attempts + (m + 1) := by omega
    rw [hm]; rfl

/-- A status response `completed` whose url is absent or empty falls
through every branch of the tick body: nothing is emitted, the store is
untouched, polling continues. -/
theorem pollTick_completed_no_url (textId : Nat) (requestId : String)
    (u : Option String) (fs : Option FileResult) (texts : List Text) (attempts : Nat)
    (hp : (findTextIndex texts textId).isSome = true)
    (hu : strTruthy u = false) :
    pollTick textId requestId (.ok "completed" u fs) texts attempts = (texts, [], false) := by
  obtain ⟨i, hi⟩ := Option.isSome_iff_exists.mp hp
  simp [pollTick, hi, hu]

/-- A status query response `pending`: neither terminal nor `processing`,
so the tick body does nothing. -/
def pendingTick : TickBehavior := .ok "pending" none none

/-- A task entry as pushed by the submission handler and then observed by
the poller (status already `processing`). -/
def pollerTask : Text := ⟨1, "a sunset", "", "", none, "processing", some "t1"⟩

/-- Oracle whose terminal success (with a working filestore) arrives
exactly on the last allowed attempt, number 120. -/
def lastAttemptSuccess : Nat → TickBehavior := fun n =>
  if n == maxAttempts then
    .ok "completed" (some "https://img.example/x.png")
      (some ⟨"f.png", "https://store.example/f.png", none⟩)
  else pendingTick

/-- Oracle whose terminal `failed` arrives exactly on attempt 120. -/
def lastAttemptFailed : Nat → TickBehavior := fun n =>
  if n == maxAttempts then .ok "failed" none none else pendingTick

/-- Oracle whose completion arrives on attempt 120 and whose filestore
step then throws. -/
def lastAttemptStoreFails : Nat → TickBehavior := fun n =>
  if n == maxAttempts then .ok "completed" (some "https://img.example/x.png") none
  else pendingTick

/-- C1: when the terminal response arrives on the last allowed attempt,
the trailing `attempts >= maxAttempts` check still fires: the run emits a
`timeout` event with status `error` after the `final` event, so emission
does not stop at the first terminal event. -/
theorem timeout_event_follows_final_on_last_attempt :
    (pollForTaskCompletion lastAttemptSuccess 1 "r" [pollerTask]).2 =
      [mkStage "r" "image-completed" "Image generation completed!" "completed",
       mkStage "r" "storing-file" "Storing image in ATXP Filestore..." "in-progress",
       mkStage "r" "completed" "Image stored successfully! Process completed." "final",
       mkStage "r" "timeout" "Image generation timed out." "error"] ∧
    (pollForTaskCompletion lastAttemptSuccess 1 "r" [pollerTask]).1 =
      [⟨1, "a sunset", "https://store.example/f.png", "f.png", some "f.png", "failed",
        some "t1"⟩] := by
  constructor <;> rfl

/-- C2: an external `failed` observed on attempt 120 produces two events
with status `error` — the `generation-failed` event and then a `timeout`
event — not exactly one, and emission continues after the first terminal
error event. -/
theorem second_error_event_after_failed_on_last_attempt :
    pollForTaskCompletion lastAttemptFailed 1 "r" [pollerTask] =
      ([⟨1, "a sunset", "", "", none, "failed", some "t1"⟩],
       [mkStage "r" "generation-failed" "Image generation failed." "error",
        mkStage "r" "timeout" "Image generation timed out." "error"]) := by
  rfl

/-- C5: a completion with a result locator on attempt 120 whose filestore
step fails still runs the trailing timeout block: the task ends with
status `failed` (not `completed`) even though the warning and `final`
events were emitted, and a `timeout` error event follows them. -/
theorem store_failure_on_last_attempt_marks_task_failed :
    pollForTaskCompletion lastAttemptStoreFails 1 "r" [pollerTask] =
      ([⟨1, "a sunset", "https://img.example/x.png", "", none, "failed", some "t1"⟩],
       [mkStage "r" "image-completed" "Image generation completed!" "completed",
        mkStage "r" "storing-file" "Storing image in ATXP Filestore..." "in-progress",
        mkStage "r" "filestore-warning" "Image ready! Filestore unavailable, using direct URL."
          "completed",
        mkStage "r" "completed" "Image generation completed!" "final",
        mkStage "r" "timeout" "Image generation timed out." "error"]) := by
  rfl

/-- C8: a tick on which the status query throws changes nothing: the store
is untouched, no event is emitted, the `completed` flag stays false, and
the loop proceeds to the next tick exactly as if the errored tick had only
consumed one attempt. -/
theorem transient_error_tick_is_retried
    (resp : Nat → TickBehavior) (textId : Nat) (requestId : String)
    (texts : List Text) (attempts rem : Nat)
    (h : resp (attempts + 1) = TickBehavior.err) :
    pollTick textId requestId (resp (attempts + 1)) texts (attempts + 1) =
      (texts, [], false) ∧
    pollLoop resp textId requestId texts attempts (rem + 1) =
      pollLoop resp textId requestId texts (attempts + 1) rem := by
  constructor
  · rw [h]; rfl
  · rw [pollLoop_succ, h]
    rfl

theorem transient_error_tick_is_retried_witness :
    ((fun _ => TickBehavior.err) 1 = TickBehavior.err) ∧
    pollLoop (fun _ => TickBehavior.err) 1 "r" [pollerTask] 0 (2 + 1) =
      pollLoop (fun _ => TickBehavior.err) 1 "r" [pollerTask] 1 2 :=
  ⟨rfl, (transient_error_tick_is_retried (fun _ => TickBehavior.err) 1 "r"
    [pollerTask] 0 2 rfl).2⟩

/-- C10: a `completed` response without a truthy url is treated as
non-terminal — the tick emits nothing, leaves the store unchanged and the
loop running — and a run consisting only of such responses ends through
the timeout path with the task marked `failed` and a single `timeout`
error event. -/
theorem completed_without_locator_is_nonterminal
    (resp : Nat → TickBehavior) (textId : Nat) (requestId : String) (texts : List Text)
    (u : Option String) (fs : Option FileResult) (attempts : Nat)
    (hp : (findTextIndex texts textId).isSome = true)
    (hu : strTruthy u = false)
    (hall : ∀ n, 1 ≤ n → n ≤ maxAttempts →
      ∃ u' fs', resp n = TickBehavior.ok "completed" u' fs' ∧ strTruthy u' = false) :
    pollTick textId requestId (TickBehavior.ok "completed" u fs) texts attempts =
      (texts, [], false) ∧
    ∃ i, findTextIndex texts textId = some i ∧
      pollForTaskCompletion resp textId requestId texts =
        (updateAt texts i (fun t => { t with status := "failed" }),
         [mkStage requestId "timeout" "Image generation timed out." "error"]) := by
  refine ⟨pollTick_completed_no_url textId requestId u fs texts attempts hp hu, ?_⟩
  obtain ⟨i, hi⟩ := Option.isSome_iff_exists.mp hp
  have hloop : pollLoop resp textId requestId texts 0 maxAttempts =
      (texts, [], 0 + maxAttempts) := by
    refine pollLoop_silent resp textId requestId maxAttempts 0 texts ?_
    intro n hn1 hn2
    obtain ⟨u', fs', hresp, hu'⟩ := hall n hn1 (by omega)
    rw [hresp]
    exact pollTick_completed_no_url textId requestId u' fs' texts n hp hu'
  refine ⟨i, hi, ?_⟩
  rw [pollForTaskCompletion_eq, hloop]
  have hle : maxAttempts ≤ (texts, ([] : List StageEvent), 0 + maxAttempts).2.2 := by
    show maxAttempts ≤ 0 + maxAttempts
    omega
  rw [if_pos hle]
  show (match findTextIndex texts textId with
        | some i => updateAt texts i (fun t => { t with status := "failed" })
        | none => texts,
        [] ++ [mkStage requestId "timeout" "Image generation timed out." "error"]) = _
  rw [hi]; rfl

theorem completed_without_locator_is_nonterminal_witness :
    ((findTextIndex [pollerTask] 1).isSome = true) ∧
    strTruthy (some "") = false ∧
    (pollTick 1 "r" (TickBehavior.ok "completed" (some "") none) [pollerTask] 7 =
      ([pollerTask], [], false) ∧
     ∃ i, findTextIndex [pollerTask] 1 = some i ∧
      pollForTaskCompletion (fun _ => TickBehavior.ok "completed" (some "") none) 1 "r"
          [pollerTask] =
        (updateAt [pollerTask] i (fun t => { t with status := "failed" }),
         [mkStage "r" "timeout" "Image generation timed out." "error"])) :=
  ⟨rfl, rfl,
    completed_without_locator_is_nonterminal (fun _ => TickBehavior.ok "completed" (some "") none)
      1 "r" [pollerTask] (some "") none 7 rfl rfl
      (fun _ _ _ => ⟨some "", none, rfl, rfl⟩)⟩

/-- C3: the loop consumes at most `maxAttempts = 120` attempts for every
oracle, and a run that never observes a terminal status ends through the
timeout path: the task is set to `failed` and exactly one event with
status `error` — the `timeout` one — is emitted. -/
theorem poll_loop_bounded_and_timeout_path
    (resp : Nat → TickBehavior) (textId : Nat) (requestId : String) (texts : List Text)
    (hp : (findTextIndex texts textId).isSome = true)
    (hnt : ∀ n, 1 ≤ n → n ≤ maxAttempts → isTerminal (resp n) = false) :
    (∀ resp2 : Nat → TickBehavior,
      (pollLoop resp2 textId requestId texts 0 maxAttempts).2.2 ≤ maxAttempts) ∧
    ∃ i, findTextIndex texts textId = some i ∧
      (pollForTaskCompletion resp textId requestId texts).1 =
        updateAt texts i (fun t => { t with status := "failed" }) ∧
      ((pollForTaskCompletion resp textId requestId texts).2.filter
          (fun e => e.status == "error")) =
        [mkStage requestId "timeout" "Image generation timed out." "error"] := by
  constructor
  · intro resp2
    have := pollLoop_attempts_le resp2 textId requestId maxAttempts 0 texts
    omega
  · obtain ⟨i, hi⟩ := Option.isSome_iff_exists.mp hp
    obtain ⟨h1, h2, h3⟩ := pollLoop_nonterminal resp textId requestId maxAttempts 0 texts hp
      (fun n hn1 hn2 => hnt n (by omega) (by omega))
    have hle : maxAttempts ≤ (pollLoop resp textId requestId texts 0 maxAttempts).2.2 := by
      omega
    have heq : pollForTaskCompletion resp textId requestId texts =
        (updateAt texts i (fun t => { t with status := "failed" }),
         (pollLoop resp textId requestId texts 0 maxAttempts).2.1 ++
           [mkStage requestId "timeout" "Image generation timed out." "error"]) := by
      rw [pollForTaskCompletion_eq, if_pos hle, h1, hi]
    refine ⟨i, hi, ?_, ?_⟩
    · rw [heq]
    · rw [heq]
      show ((pollLoop resp textId requestId texts 0 maxAttempts).2.1 ++
          [mkStage requestId "timeout" "Image generation timed out." "error"]).filter
          (fun e => e.status == "error") = _
      rw [List.filter_append]
      have hnil : (pollLoop resp textId requestId texts 0 maxAttempts).2.1.filter
          (fun e => e.status == "error") = [] := by
        rw [List.filter_eq_nil_iff]
        intro e he
        rw [h3 e he]
        decide
      rw [hnil]
      rfl

theorem poll_loop_bounded_and_timeout_path_witness :
    ((findTextIndex [pollerTask] 1).isSome = true) ∧
    ((∀ resp2 : Nat → TickBehavior,
        (pollLoop resp2 1 "r" [pollerTask] 0 maxAttempts).2.2 ≤ maxAttempts) ∧
      ∃ i, findTextIndex [pollerTask] 1 = some i ∧
        (pollForTaskCompletion (fun _ => TickBehavior.ok "processing" none none) 1 "r"
            [pollerTask]).1 =
          updateAt [pollerTask] i (fun t => { t with status := "failed" }) ∧
        ((pollForTaskCompletion (fun _ => TickBehavior.ok "processing" none none) 1 "r"
            [pollerTask]).2.filter (fun e => e.status == "error")) =
          [mkStage "r" "timeout" "Image generation timed out." "error"]) :=
  ⟨rfl, poll_loop_bounded_and_timeout_path (fun _ => TickBehavior.ok "processing" none none)
    1 "r" [pollerTask] rfl (fun _ _ _ => rfl)⟩

/-- C6: when client creation or the external creation call throws, the
caller gets a synchronous 500, exactly one `error`-status event (the
`initialization-error` one) is emitted, no poller is started, and the
store — hence `GET /api/texts` — never contains the submission. -/
theorem creation_failure_synchronous_no_poller
    (now : Nat) (texts : List Text) (inp : SubmitInput)
    (hv : textMissing inp.text = false)
    (hc : (getATXPConnectionString inp.header inp.env).isSome = true)
    (ha : inp.accountOk = true)
    (hf : inp.create = CreateOutcome.clientError ∨ inp.create = CreateOutcome.createError) :
    (handleSubmit now texts inp).httpStatus = 500 ∧
    ((handleSubmit now texts inp).events.filter (fun e => e.status == "error")) =
      [mkStage (toString now) "initialization-error" "Failed to start image generation."
        "error"] ∧
    (handleSubmit now texts inp).pollerStarted = false ∧
    (handleSubmit now texts inp).texts = texts := by
  obtain ⟨cs, hcs⟩ := Option.isSome_iff_exists.mp hc
  rcases hf with hf | hf
  · have hrec : handleSubmit now texts inp =
        ⟨500, none,
         [mkStage (toString now) "initializing" "Starting async image generation process..."
            "in-progress",
          mkStage (toString now) "creating-clients" "Initializing ATXP clients..." "in-progress",
          mkStage (toString now) "initialization-error" "Failed to start image generation."
            "error"],
         texts, false⟩ := by
      simp only [handleSubmit, hv, Bool.false_eq_true, if_false, hcs, ha, Bool.not_true, hf]
    rw [hrec]
    exact ⟨rfl, rfl, rfl, rfl⟩
  · have hrec : handleSubmit now texts inp =
        ⟨500, none,
         [mkStage (toString now) "initializing" "Starting async image generation process..."
            "in-progress",
          mkStage (toString now) "creating-clients" "Initializing ATXP clients..." "in-progress",
          mkStage (toString now) "starting-async-generation" "Starting async image generation..."
            "in-progress",
          mkStage (toString now) "initialization-error" "Failed to start image generation."
            "error"],
         texts, false⟩ := by
      simp only [handleSubmit, hv, Bool.false_eq_true, if_false, hcs, ha, Bool.not_true, hf]
    rw [hrec]
    exact ⟨rfl, rfl, rfl, rfl⟩

def failingCreate : SubmitInput := ⟨some "a sunset", some "cs", none, true,
  CreateOutcome.clientError⟩

theorem creation_failure_synchronous_no_poller_witness :
    textMissing failingCreate.text = false ∧
    (getATXPConnectionString failingCreate.header failingCreate.env).isSome = true ∧
    ((handleSubmit 1000 [] failingCreate).httpStatus = 500 ∧
     ((handleSubmit 1000 [] failingCreate).events.filter (fun e => e.status == "error")) =
       [mkStage (toString 1000) "initialization-error" "Failed to start image generation."
         "error"] ∧
     (handleSubmit 1000 [] failingCreate).pollerStarted = false ∧
     (handleSubmit 1000 [] failingCreate).texts = []) :=
  ⟨rfl, rfl,
    creation_failure_synchronous_no_poller 1000 [] failingCreate rfl rfl rfl (Or.inl rfl)⟩

/-- C7: a missing or whitespace-only text, or an unresolvable connection
string (no truthy header and no truthy environment variable), yields a
synchronous 400 with no task created, no event emitted, and no poller. -/
theorem invalid_submission_rejected_without_effects
    (now : Nat) (texts : List Text) (inp : SubmitInput)
    (h : textMissing inp.text = true ∨
      getATXPConnectionString inp.header inp.env = none) :
    handleSubmit now texts inp = ⟨400, none, [], texts, false⟩ := by
  rcases h with h | h
  · simp only [handleSubmit, h, if_true]
  · cases hv : textMissing inp.text
    · simp only [handleSubmit, hv, Bool.false_eq_true, if_false, h]
    · simp only [handleSubmit, hv, if_true]

def blankSubmission : SubmitInput := ⟨some "   ", none, none, true, CreateOutcome.ok "t9"⟩

theorem invalid_submission_rejected_without_effects_witness :
    (textMissing blankSubmission.text = true ∨
      getATXPConnectionString blankSubmission.header blankSubmission.env = none) ∧
    handleSubmit 1000 [] blankSubmission = ⟨400, none, [], [], false⟩ :=
  ⟨Or.inl rfl,
    invalid_submission_rejected_without_effects 1000 [] blankSubmission (Or.inl rfl)⟩

/-- The body returned with a 201 carries `id = Date.now()` of the
request. -/
theorem handleSubmit_body_id (now : Nat) (texts : List Text) (inp : SubmitInput) (t : Text)
    (h : (handleSubmit now texts inp).body = some t) : t.id = now := by
  unfold handleSubmit at h
  split at h
  · simp at h
  · split at h
    · simp at h
    · split at h
      · simp at h
      · split at h
        · simp at h
        · simp at h
        · simp only [Option.some.injEq] at h
          subst h
          rfl

def submissionA : SubmitInput := ⟨some "first", some "cs", none, true, CreateOutcome.ok "t1"⟩

def submissionB : SubmitInput := ⟨some "second", some "cs", none, true, CreateOutcome.ok "t2"⟩

def dummyText : Text := ⟨0, "", "", "", none, "", none⟩

/-- The store after two accepted submissions that both observe
`Date.now() = 1000`. -/
def sameMsStore : List Text :=
  (handleSubmit 1000 (handleSubmit 1000 [] submissionA).texts submissionB).texts

/-- C9 counterexample: two submissions accepted in the same millisecond
produce two distinct stored tasks whose `id` fields coincide, so task ids
are not unique. -/
theorem same_millisecond_submissions_share_id :
    sameMsStore.length = 2 ∧
    sameMsStore.getD 0 dummyText ≠ sameMsStore.getD 1 dummyText ∧
    (sameMsStore.getD 0 dummyText).id = (sameMsStore.getD 1 dummyText).id := by
  refine ⟨rfl, ?_, rfl⟩
  decide

/-- C9 (amended): a task's id is the `Date.now()` value of its submission,
so tasks accepted at distinct timestamps have distinct ids. -/
theorem accepted_tasks_at_distinct_times_have_distinct_ids
    (now1 now2 : Nat) (texts1 texts2 : List Text) (inp1 inp2 : SubmitInput) (t1 t2 : Text)
    (h1 : (handleSubmit now1 texts1 inp1).body = some t1)
    (h2 : (handleSubmit now2 texts2 inp2).body = some t2)
    (hne : now1 ≠ now2) : t1.id ≠ t2.id := by
  rw [handleSubmit_body_id now1 texts1 inp1 t1 h1,
    handleSubmit_body_id now2 texts2 inp2 t2 h2]
  exact hne

def taskA : Text := ⟨1000, "first", "", "", none, "processing", some "t1"⟩

def taskB : Text := ⟨1001, "second", "", "", none, "processing", some "t2"⟩

theorem accepted_tasks_at_distinct_times_have_distinct_ids_witness :
    (handleSubmit 1000 [] submissionA).body = some taskA ∧
    (handleSubmit 1001 [] submissionB).body = some taskB ∧
    taskA.id ≠ taskB.id :=
  ⟨rfl, rfl,
    accepted_tasks_at_distinct_times_have_distinct_ids 1000 1001 [] [] submissionA submissionB
      taskA taskB rfl rfl (by decide)⟩

/-- External status sequence of the C4 scenario: `processing, processing,
completed(url = https://img.example/sunset.png)`, with filestore outcome
`fs`. -/
def scenarioResp (fs : Option FileResult) : Nat → TickBehavior := fun n =>
  if n ≤ 2 then TickBehavior.ok "processing" none none
  else TickBehavior.ok "completed" (some "https://img.example/sunset.png") fs

def scenarioSubmission : SubmitInput :=
  ⟨some "a sunset", some "cs", none, true, CreateOutcome.ok "task-1"⟩

/-- The stage/status pairs the C4 scenario must deliver, in order. -/
def expectedStageOrder : List (String × String) :=
  [("task-started", "in-progress"), ("processing", "in-progress"),
   ("image-completed", "completed"), ("storing-file", "in-progress"),
   ("completed", "final")]

/-- `xs` occurs inside `ys` in order (not necessarily contiguously). -/
def isSubseqOf : List (String × String) → List (String × String) → Bool
  | [], _ => true
  | _ :: _, [] => false
  | a :: as, b :: bs => if a == b then isSubseqOf as bs else isSubseqOf (a :: as) bs

def scenarioRun (fs : Option FileResult) : SubmitResult × List Text × List StageEvent :=
  submitAndPoll 1000 [] scenarioSubmission (scenarioResp fs)

/-- C4: the scenario submission answers 201 with status `processing` and a
non-null task id; the task ends `completed` with the original url (or the
filestore locator when the store step succeeds); and the event trace
contains `task-started, processing, image-completed, storing-file,
completed(final)` in this order. -/
theorem scenario_two_processing_then_completed (fs : Option FileResult) :
    (scenarioRun fs).1.httpStatus = 201 ∧
    ((scenarioRun fs).1.body.map (fun t => t.status)) = some "processing" ∧
    ((scenarioRun fs).1.body.map (fun t => t.taskId)) = some (some "task-1") ∧
    ((scenarioRun fs).2.1.map (fun t => t.status)) = ["completed"] ∧
    ((scenarioRun fs).2.1.map (fun t => t.imageUrl)) =
      [match fs with
       | some fr => fr.url
       | none => "https://img.example/sunset.png"] ∧
    isSubseqOf expectedStageOrder
      ((scenarioRun fs).2.2.map (fun e => (e.stage, e.status))) = true := by
  cases fs with
  | none => exact ⟨rfl, rfl, rfl, rfl, rfl, rfl⟩
  | some fr => exact ⟨rfl, rfl, rfl, rfl, rfl, rfl⟩

theorem scenario_two_processing_then_completed_witness :
    (scenarioRun none).1.httpStatus = 201 ∧
    ((scenarioRun none).1.body.map (fun t => t.status)) = some "processing" ∧
    ((scenarioRun none).1.body.map (fun t => t.taskId)) = some (some "task-1") ∧
    ((scenarioRun none).2.1.map (fun t => t.status)) = ["completed"] ∧
    ((scenarioRun none).2.1.map (fun t => t.imageUrl)) = ["https://img.example/sunset.png"] ∧
    isSubseqOf expectedStageOrder
      ((scenarioRun none).2.2.map (fun e => (e.stage, e.status))) = true :=
  scenario_two_processing_then_completed none

end Server
